import Mathlib

/-
Shallow embedding of the client-side Wayland backend core:
`wayland-backend/src/rs/client/mod.rs` (the authoritative source), with the
external collaborators that live outside that file (the `ObjectMap` from
`super::map`, and the `protocol` helpers `same_interface`,
`same_interface_or_anonymous`, `check_for_signature`) modelled from the
specification.

Modelling conventions:
- machine integers (`u32`) are `Nat` with explicit `% 2 ^ 32` where the source
  wraps (`wrapping_add`) or bit-negates (`!p.id`);
- the buffered socket is external: IO outcomes of `write_message`,
  `fill_incoming_buffers` and `flush` enter the model as parameters
  (`Option IoErr`, `none` = success), and the stream of parse results consumed
  by the dispatch loop enters as an explicit script (`List DispatchInput`);
- `&'static Interface` pointers are interface identifiers (`Nat`) resolved
  through a registry `IfaceDb : Nat → IfaceData`; pointer/name identity
  (`same_interface`) becomes identifier equality;
- `Arc<dyn ObjectData>` capabilities are inert tags (`UData`); the side of a
  callback that matters to the dispatch loop (its optional returned child
  data) is an oracle parameter, and callback invocations are recorded in an
  action trace instead of being executed.  Mutations a user callback could
  perform on the handle are not modelled; the theorems below only concern
  code paths that run before or without invoking a callback.
- Rust `panic!` / `unreachable!` / `.unwrap()` / `.expect()` become explicit
  `panic`-constructors of the result types.
-/

namespace WlClient

/-- Tag standing for an `Arc<dyn ObjectData>` capability: the two built-in
capabilities (`DumbObjectData`, `UninitObjectData`) and user-supplied ones. -/
inductive UData where
  | dumb
  | uninit
  | user (n : Nat)
deriving DecidableEq

/-- `std::io::Error`, reduced to what the source inspects: whether its kind is
`WouldBlock`, plus an opaque code so distinct errors stay distinct. -/
inductive IoErr where
  | wouldBlock
  | other (code : Nat)
deriving DecidableEq

/-- `crate::protocol::ProtocolError`. -/
structure ProtocolError where
  code : Nat
  object_id : Nat
  object_interface : String
  message : String
deriving DecidableEq

/-- `WaylandError` (from `crate::types::client`): an IO error or a protocol
error. -/
inductive WaylandError where
  | io (e : IoErr)
  | protocol (p : ProtocolError)
deriving DecidableEq

/-- `InvalidId` (from `crate::types::client`). -/
inductive InvalidId where
  | mk
deriving DecidableEq

/-- `ArgumentType` from the protocol module (modelled from the spec: the
argument-type signature alphabet, with the nullability payloads the source
inspects on `Object` and `NewId`). -/
inductive ArgumentType where
  | int
  | uint
  | fixed
  | str
  | object (allow_null : Bool)
  | newid (allow_null : Bool)
  | array
  | fd
deriving DecidableEq

/-- `Argument<Id>` from the protocol module: one wire argument, generic over
how object ids are represented (`u32` on the wire, `ObjectId` once resolved). -/
inductive Argument (α : Type) where
  | int (i : Int)
  | uint (u : Nat)
  | fixed (f : Int)
  | str (s : String)
  | object (o : α)
  | newid (n : α)
  | array (a : List Nat)
  | fd (f : Int)
deriving DecidableEq

/-- A message descriptor (external interface registry, modelled from the spec:
opcode position is the list index; argument-type signature, per-argument
expected interfaces, optional child interface, destructor flag). -/
structure MessageDesc where
  name : String
  signature : List ArgumentType
  arg_interfaces : List Nat
  child_interface : Option Nat
  is_destructor : Bool
deriving DecidableEq

/-- Static data of one interface (modelled from the spec: name plus ordered
request and event descriptor lists). -/
structure IfaceData where
  name : String
  requests : List MessageDesc
  events : List MessageDesc
deriving DecidableEq

/-- The static interface registry: resolves an interface identifier (standing
for a `&'static Interface` pointer) to its data. -/
def IfaceDb : Type := Nat → IfaceData

/-- Identifier of `ANONYMOUS_INTERFACE`. -/
def ANONYMOUS : Nat := 0

/-- Identifier of `WL_DISPLAY_INTERFACE`. -/
def WL_DISPLAY : Nat := 1

/-- `same_interface` (protocol module, modelled from the spec: interface
identity — pointer or name equality — becomes identifier equality). -/
def same_interface (a b : Nat) : Bool := a == b

/-- `same_interface_or_anonymous` (protocol module, modelled from the spec):
the expected interface `a` matches `b` if they are the same interface or `a`
is the anonymous sentinel. -/
def same_interface_or_anonymous (a b : Nat) : Bool :=
  same_interface a b || same_interface a ANONYMOUS

/-- `struct ObjectId { serial, id, interface }` from mod.rs. -/
structure ObjectId where
  serial : Nat
  id : Nat
  interface : Nat
deriving DecidableEq

/-- `struct Data` from mod.rs: the per-record bookkeeping attached to every
object in the map. -/
structure Data where
  client_destroyed : Bool
  server_destroyed : Bool
  user_data : UData
  serial : Nat
deriving DecidableEq

/-- `Object<Data>` from `super::map`: interface, negotiated version, data. -/
structure Object where
  interface : Nat
  version : Nat
  data : Data
deriving DecidableEq

/-- `ObjectInfo` returned by `Handle::info`. -/
structure ObjectInfo where
  id : Nat
  interface : Nat
  version : Nat
deriving DecidableEq

/-- `SERVER_ID_LIMIT` from `super::map`: ids at or above this threshold are
server-allocated. -/
def SERVER_ID_LIMIT : Nat := 0xFF000000

/-- Modelled from the spec: the `ObjectMap` of `super::map` is a finite index
from protocol id to object record; we represent it as an association list
with unique keys. `ObjectMap::find`: read-only lookup by protocol id. -/
def mapFind : List (Nat × Object) → Nat → Option Object
  | [], _ => none
  | (k, o) :: rest, i => if k = i then some o else mapFind rest i

/-- Modelled from the spec: `ObjectMap::remove` drops the record at the id. -/
def mapRemove : List (Nat × Object) → Nat → List (Nat × Object)
  | [], _ => []
  | (k, o) :: rest, i =>
    if k = i then mapRemove rest i else (k, o) :: mapRemove rest i

/-- Modelled from the spec: `ObjectMap::with` applies a mutator to the record
if present (the closure's return value is recovered separately via
`mapFind`). -/
def mapWith : List (Nat × Object) → Nat → (Object → Object) → List (Nat × Object)
  | [], _, _ => []
  | (k, o) :: rest, i, f =>
    if k = i then (k, f o) :: mapWith rest i f else (k, o) :: mapWith rest i f

/-- Modelled from the spec: `ObjectMap::insert_at` fails if the id is already
present, otherwise stores the record at the id. -/
def mapInsertAt (m : List (Nat × Object)) (i : Nat) (o : Object) :
    Option (List (Nat × Object)) :=
  if (mapFind m i).isSome then none else some ((i, o) :: m)

/-- Helper for `client_insert_new`: the first id at or after `k` (bounded by
`fuel`, which always suffices for a finite map) that is free in the map. -/
def firstFreeFrom (m : List (Nat × Object)) : Nat → Nat → Nat
  | k, 0 => k
  | k, fuel + 1 => if (mapFind m k).isSome then firstFreeFrom m (k + 1) fuel else k

/-- Modelled from the spec: `ObjectMap::client_insert_new` allocates the lowest
free id in the client range (starting at 2), stores the record there and
returns the id. -/
def clientInsertNew (m : List (Nat × Object)) (o : Object) :
    Nat × List (Nat × Object) :=
  let i := firstFreeFrom m 2 (m.length + 1)
  (i, (i, o) :: m)

/-- `struct Handle` from mod.rs, minus the buffered socket (external; its IO
outcomes are passed as parameters to the operations that touch it). -/
structure Handle where
  map : List (Nat × Object)
  last_error : Option WaylandError
  last_serial : Nat
  pending_placeholder : Option (Nat × Nat)
  debug : Bool
deriving DecidableEq

/-- `Message<α>` from the protocol module: sender, opcode, argument list. -/
structure Message (α : Type) where
  sender_id : α
  opcode : Nat
  args : List (Argument α)
deriving DecidableEq

/-- `Handle::next_serial`: wrapping `u32` increment of `last_serial`. -/
def next_serial (h : Handle) : Nat × Handle :=
  let s := (h.last_serial + 1) % 2 ^ 32
  (s, { h with last_serial := s })

/-- `Handle::no_last_error`. -/
def no_last_error (h : Handle) : Option WaylandError :=
  h.last_error

/-- `Handle::store_and_return_error`. -/
def store_and_return_error (h : Handle) (e : WaylandError) :
    WaylandError × Handle :=
  (e, { h with last_error := some e })

/-- `Handle::store_if_not_wouldblock_and_return_error`. -/
def store_if_not_wouldblock_and_return_error (h : Handle) (e : IoErr) :
    WaylandError × Handle :=
  if e ≠ IoErr.wouldBlock then store_and_return_error h (WaylandError.io e)
  else (WaylandError.io e, h)

/-- Result of a map lookup gated on the generation serial. -/
inductive IdResult (α : Type) where
  | invalid
  | ok (a : α)
deriving DecidableEq

/-- `Handle::get_object`: lookup must succeed and the record's serial must
equal the id's serial. -/
def get_object (h : Handle) (id : ObjectId) : IdResult Object :=
  match mapFind h.map id.id with
  | none => IdResult.invalid
  | some object =>
    if object.data.serial ≠ id.serial then IdResult.invalid
    else IdResult.ok object

/-- `Handle::display_id`. -/
def display_id : ObjectId := ⟨0, 1, WL_DISPLAY⟩

/-- `Handle::null_id`. -/
def null_id : ObjectId := ⟨0, 0, ANONYMOUS⟩

/-- `Handle::last_error` (the public accessor). -/
def last_error_of (h : Handle) : Option WaylandError :=
  h.last_error

/-- `Handle::info`: `get_object`, then refuse client-destroyed records. -/
def info (h : Handle) (id : ObjectId) : IdResult ObjectInfo :=
  match get_object h id with
  | IdResult.invalid => IdResult.invalid
  | IdResult.ok object =>
    if object.data.client_destroyed then IdResult.invalid
    else IdResult.ok ⟨id.id, object.interface, object.version⟩

/-- `Handle::placeholder_id`: stash the spec in the pending slot and return a
sentinel id with protocol id 0. -/
def placeholder_id (h : Handle) (spec : Option (Nat × Nat)) :
    ObjectId × Handle :=
  (⟨0, 0, (spec.map Prod.fst).getD ANONYMOUS⟩,
   { h with pending_placeholder := spec })

/-- `Handle::get_data`: `get_object`, then return the capability (note: no
destruction check in the source). -/
def get_data (h : Handle) (id : ObjectId) : IdResult UData :=
  match get_object h id with
  | IdResult.invalid => IdResult.invalid
  | IdResult.ok object => IdResult.ok object.data.user_data

/-- `Handle::set_data`: `map.with` gated only on the serial inside the
closure; absent id gives `InvalidId` (note: no destruction check in the
source). -/
def set_data (h : Handle) (id : ObjectId) (d : UData) :
    IdResult Unit × Handle :=
  match mapFind h.map id.id with
  | none => (IdResult.invalid, h)
  | some objdata =>
    if objdata.data.serial ≠ id.serial then (IdResult.invalid, h)
    else
      (IdResult.ok (),
       { h with
         map := mapWith h.map id.id fun o =>
           { o with data := { o.data with user_data := d } } })

/-! ### Sending a request (`Handle::send_request`) -/

/-- Panic message: unknown opcode for the sender interface. -/
def unknownOpcodeMsg : String := "Unknown opcode for object."

/-- Panic message: argument list does not match the request signature. -/
def badSignatureMsg : String := "Unexpected signature for request."

/-- Panic message: placeholder interface differs from the declared child
interface. -/
def wrongPlaceholderIfaceMsg : String :=
  "Wrong placeholder used when sending request: wrong interface."

/-- Panic message: placeholder version differs from the sender's version. -/
def wrongPlaceholderVersionMsg : String :=
  "Wrong placeholder used when sending request: wrong version."

/-- Panic message: generic constructor used without a placeholder spec. -/
def genericCtorMsg : String :=
  "Wrong placeholder used when sending request: target interface must be specified for a generic constructor."

/-- Panic message: request creates an object but no object data was given. -/
def missingChildDataMsg : String :=
  "Sending a request creating an object without providing an object data."

/-- Panic message: the NewId argument is not a placeholder. -/
def notAPlaceholderMsg : String :=
  "The newid provided when sending request is not a placeholder."

/-- Panic message for `unreachable!()`. -/
def unreachableMsg : String := "unreachable"

/-- Panic message: `arg_interfaces` iterator exhausted (`next().unwrap()`). -/
def argIfaceUnwrapMsg : String := "arg interface iterator exhausted"

/-- Panic message: object argument has the wrong interface. -/
def sendIfaceMismatchMsg : String :=
  "Request expects an argument of a different interface."

/-- Panic message: null object passed where a non-null object is expected. -/
def nonNullObjectMsg : String := "Request expects a non-null object argument."

/-- Panic message: signature index out of bounds. -/
def sigIndexMsg : String := "signature index out of bounds"

/-- `check_for_signature` (protocol module, modelled from the spec: the
argument list matches the signature element by element). -/
def arg_matches : Argument ObjectId → ArgumentType → Bool
  | Argument.int _, ArgumentType.int => true
  | Argument.uint _, ArgumentType.uint => true
  | Argument.fixed _, ArgumentType.fixed => true
  | Argument.str _, ArgumentType.str => true
  | Argument.object _, ArgumentType.object _ => true
  | Argument.newid _, ArgumentType.newid _ => true
  | Argument.array _, ArgumentType.array => true
  | Argument.fd _, ArgumentType.fd => true
  | _, _ => false

/-- `check_for_signature` (protocol module, modelled from the spec). -/
def check_for_signature (sig : List ArgumentType)
    (args : List (Argument ObjectId)) : Bool :=
  sig.length == args.length &&
    (List.zip args sig).all fun p => arg_matches p.1 p.2

/-- Does this argument type create an object (`ArgumentType::NewId(_)`)? -/
def is_newid_type : ArgumentType → Bool
  | ArgumentType.newid _ => true
  | _ => false

/-- Does the signature contain a NewId argument? -/
def has_newid (sig : List ArgumentType) : Bool := sig.any is_newid_type

/-- Outcome of resolving the child interface/version for an
object-creating request (`None` when the request creates no object). -/
inductive SpecResult where
  | panic (s : String)
  | ok (spec : Option (Nat × Nat))
deriving DecidableEq

/-- Child-spec resolution inside `Handle::send_request` (mod.rs lines
606-646): the stashed placeholder spec is validated against the descriptor's
declared child interface (interface equality, and the stashed version against
the *sender's* version); with no stashed spec the declared child interface is
paired with the sender's version; a generic constructor without a stashed
spec is a fatal programming error. -/
def resolve_child_spec (desc : MessageDesc) (pending : Option (Nat × Nat))
    (sender_version : Nat) : SpecResult :=
  if has_newid desc.signature then
    match pending with
    | some (iface, version) =>
      match desc.child_interface with
      | some child_interface =>
        if ¬ same_interface child_interface iface then
          SpecResult.panic wrongPlaceholderIfaceMsg
        else if version ≠ sender_version then
          SpecResult.panic wrongPlaceholderVersionMsg
        else SpecResult.ok (some (iface, version))
      | none => SpecResult.ok (some (iface, version))
    | none =>
      match desc.child_interface with
      | some child_interface =>
        SpecResult.ok (some (child_interface, sender_version))
      | none => SpecResult.panic genericCtorMsg
  else SpecResult.ok none

/-- Bitwise `u32` negation: the value of Rust `!x` on a `u32`. -/
def u32_not (x : Nat) : Nat := 2 ^ 32 - 1 - x % 2 ^ 32

/-- Result of the first argument pass of `send_request`. -/
inductive ReplaceResult where
  | panic (s : String)
  | ok (args : List (Argument ObjectId))
deriving DecidableEq

/-- First argument pass of `send_request` (mod.rs lines 677-690): each NewId
argument is replaced by the freshly created child id.  The source guards this
with `if !p.id == 0 { panic }` — a *bitwise* negation on `u32`, so the panic
fires exactly when `p.id == u32::MAX`, not for every non-zero id. -/
def replace_newid (child : Option (Nat × Nat × Nat)) :
    List (Argument ObjectId) → ReplaceResult
  | [] => ReplaceResult.ok []
  | Argument.newid p :: rest =>
    if u32_not p.id = 0 then ReplaceResult.panic notAPlaceholderMsg
    else
      match child with
      | some (child_id, child_serial, child_interface) =>
        match replace_newid child rest with
        | ReplaceResult.ok args =>
          ReplaceResult.ok
            (Argument.newid ⟨child_serial, child_id, child_interface⟩ :: args)
        | r => r
      | none => ReplaceResult.panic unreachableMsg
  | a :: rest =>
    match replace_newid child rest with
    | ReplaceResult.ok args => ReplaceResult.ok (a :: args)
    | r => r

/-- Result of lowering arguments to wire form. -/
inductive LowerResult where
  | panic (s : String)
  | invalid
  | ok (args : List (Argument Nat))
deriving DecidableEq

/-- Prepend a lowered argument to a `LowerResult`. -/
def lowerCons (a : Argument Nat) : LowerResult → LowerResult
  | LowerResult.ok args => LowerResult.ok (a :: args)
  | r => r

/-- Second argument pass of `send_request` (mod.rs lines 704-728): lower each
argument to wire form.  Non-null object arguments are looked up
(`get_object?`, propagating `InvalidId`) and their interface cross-checked
against the descriptor's `arg_interfaces`; null objects must be allowed by
the signature; NewId arguments carry only the numeric id.  `i` is the
positional index into the signature, `idx` the position of the
`arg_interfaces` iterator (advanced only by non-null object arguments). -/
def lower_args (h : Handle) (desc : MessageDesc) :
    Nat → Nat → List (Argument ObjectId) → LowerResult
  | _, _, [] => LowerResult.ok []
  | i, idx, arg :: rest =>
    match arg with
    | Argument.array a => lowerCons (Argument.array a) (lower_args h desc (i + 1) idx rest)
    | Argument.int v => lowerCons (Argument.int v) (lower_args h desc (i + 1) idx rest)
    | Argument.uint v => lowerCons (Argument.uint v) (lower_args h desc (i + 1) idx rest)
    | Argument.str v => lowerCons (Argument.str v) (lower_args h desc (i + 1) idx rest)
    | Argument.fixed v => lowerCons (Argument.fixed v) (lower_args h desc (i + 1) idx rest)
    | Argument.newid nid => lowerCons (Argument.newid nid.id) (lower_args h desc (i + 1) idx rest)
    | Argument.fd v => lowerCons (Argument.fd v) (lower_args h desc (i + 1) idx rest)
    | Argument.object o =>
      if o.id ≠ 0 then
        match get_object h o with
        | IdResult.invalid => LowerResult.invalid
        | IdResult.ok object =>
          match desc.arg_interfaces.get? idx with
          | none => LowerResult.panic argIfaceUnwrapMsg
          | some next_interface =>
            if ¬ same_interface_or_anonymous next_interface object.interface then
              LowerResult.panic sendIfaceMismatchMsg
            else lowerCons (Argument.object o.id) (lower_args h desc (i + 1) (idx + 1) rest)
      else
        match desc.signature.get? i with
        | some (ArgumentType.object true) =>
          lowerCons (Argument.object 0) (lower_args h desc (i + 1) idx rest)
        | some _ => LowerResult.panic nonNullObjectMsg
        | none => LowerResult.panic sigIndexMsg

/-- Outcome of `send_request` up to (but not including) the socket write. -/
inductive CoreResult where
  | panic (s : String)
  | invalid (h : Handle)
  | ready (h : Handle) (child : Option (Nat × Nat × Nat)) (is_destr : Bool)
deriving DecidableEq

/-- `Handle::send_request`, stages before the socket write (mod.rs lines
581-730): sender validation, descriptor lookup, signature check, child-spec
resolution (consuming the pending placeholder), child creation via
`client_insert_new` (installing the caller's object data), NewId replacement
and wire lowering.  `child` in the result is `(child_id, child_serial,
child_interface)` when the request created an object. -/
def send_request_core (db : IfaceDb) (h : Handle) (id : ObjectId)
    (opcode : Nat) (args : List (Argument ObjectId)) (data : Option UData) :
    CoreResult :=
  match get_object h id with
  | IdResult.invalid => CoreResult.invalid h
  | IdResult.ok object =>
  if object.data.client_destroyed then CoreResult.invalid h
  else
  match (db object.interface).requests.get? opcode with
  | none => CoreResult.panic unknownOpcodeMsg
  | some message_desc =>
  if ¬ check_for_signature message_desc.signature args then
    CoreResult.panic badSignatureMsg
  else
  match resolve_child_spec message_desc h.pending_placeholder object.version with
  | SpecResult.panic s => CoreResult.panic s
  | SpecResult.ok child_spec =>
  -- `self.pending_placeholder.take()` runs exactly when the signature
  -- contains a NewId argument
  let h1 := if has_newid message_desc.signature then
      { h with pending_placeholder := none }
    else h
  match child_spec, data with
  | some _, none => CoreResult.panic missingChildDataMsg
  | _, _ =>
  let childAndHandle :=
    match child_spec with
    | some (child_interface, child_version) =>
      let sh := next_serial h1
      let child_obj : Object :=
        ⟨child_interface, child_version, ⟨false, false, UData.dumb, sh.1⟩⟩
      let im := clientInsertNew sh.2.map child_obj
      -- the record was just inserted, so `with(..).unwrap()` cannot fail, and
      -- `data` is present in this branch (checked by the `expect` above)
      let m3 := mapWith im.2 im.1 fun o =>
        { o with data := { o.data with user_data := data.getD UData.dumb } }
      (some (im.1, sh.1, child_interface), { sh.2 with map := m3 })
    | none => (none, h1)
  match replace_newid childAndHandle.1 args with
  | ReplaceResult.panic s => CoreResult.panic s
  | ReplaceResult.ok args1 =>
  match lower_args childAndHandle.2 message_desc 0 0 args1 with
  | LowerResult.panic s => CoreResult.panic s
  | LowerResult.invalid => CoreResult.invalid childAndHandle.2
  | LowerResult.ok _wire_args =>
    CoreResult.ready childAndHandle.2 childAndHandle.1 message_desc.is_destructor

/-- Overall outcome of `Handle::send_request`. -/
inductive SendResult where
  | panic (s : String)
  | invalid (h : Handle)
  | ok (oid : ObjectId) (h : Handle)
deriving DecidableEq

/-- `Handle::send_request` (mod.rs lines 581-750).  `wr` is the outcome of
`socket.write_message` (`none` = written): an IO error is latched, never
propagated.  A destructor request then sets `client_destroyed` on the sender
(its `destroyed` callback runs; capabilities are inert here).  The call
returns the created child's id, or the null id. -/
def send_request (db : IfaceDb) (h : Handle) (id : ObjectId) (opcode : Nat)
    (args : List (Argument ObjectId)) (data : Option UData)
    (wr : Option IoErr) : SendResult :=
  match send_request_core db h id opcode args data with
  | CoreResult.panic s => SendResult.panic s
  | CoreResult.invalid h' => SendResult.invalid h'
  | CoreResult.ready h3 child is_destr =>
    let h4 := match wr with
      | some e => { h3 with last_error := some (WaylandError.io e) }
      | none => h3
    let h5 := if is_destr then
        { h4 with map := mapWith h4.map id.id fun o =>
            { o with data := { o.data with client_destroyed := true } } }
      else h4
    match child with
    | some (child_id, child_serial, child_interface) =>
      SendResult.ok ⟨child_serial, child_id, child_interface⟩ h5
    | none => SendResult.ok null_id h5

/-- Result of `Backend::flush`. -/
inductive OpResult where
  | ok
  | fail (e : WaylandError)
deriving DecidableEq

/-- `Backend::flush` (mod.rs lines 198-204): refuse when the latch is set,
otherwise drain the socket (`io` is the IO outcome), latching non-WouldBlock
errors. -/
def flush (h : Handle) (io : Option IoErr) : OpResult × Handle :=
  match no_last_error h with
  | some e => (OpResult.fail e, h)
  | none =>
    match io with
    | some e =>
      let r := store_if_not_wouldblock_and_return_error h e
      (OpResult.fail r.1, r.2)
    | none => (OpResult.ok, h)

/-! ### Dispatching events (`Backend::dispatch_events`) -/

/-- The empty string (`"".into()` in the source protocol errors). -/
def emptyStr : String := ""

/-- Protocol-error message for a malformed wire message. -/
def malformedMsg : String := "Malformed Wayland message."

/-- Protocol-error message for an unknown object argument. -/
def unknownObjectMsg (o : Nat) : String :=
  "Unknown object " ++ toString o ++ "."

/-- Protocol-error message when the server sends an object argument of the
wrong interface. -/
def eventIfaceMismatchMsg : String :=
  "Protocol error: server sent object for wrong interface."

/-- Panic message when a server event creates an object without a declared
child interface. -/
def eventNoChildIfaceMsg : String :=
  "Received event which creates an object without specifying its interface, this is unsupported."

/-- Protocol-error message when a server-announced new id collides with a
live record. -/
def invalidNewIdMsg (iface : String) (new_id : Nat) : String :=
  "Protocol error: server tried to create an object \"" ++ iface ++
    "\" with invalid id " ++ toString new_id ++ "."

/-- Placeholder interface name for an unknown object in `wl_display.error`. -/
def unknownIfaceName : String := "<unknown>"

/-- Panic message for the receiver lookup `unwrap` (mod.rs line 252). -/
def recvUnwrapMsg : String := "receiver lookup failed"

/-- Panic message for the event-descriptor lookup `unwrap` (mod.rs line 253). -/
def descUnwrapMsg : String := "event descriptor lookup failed"

/-- Panic message for the destructor `with(..).unwrap()` (mod.rs line 399). -/
def destructorUnwrapMsg : String := "destructor flag update failed"

/-- Panic message for the reconciliation `with(..).unwrap()` (mod.rs
line 412). -/
def reconcileUnwrapMsg : String := "child data update failed"

/-- Panic message: callback created an object but returned no data. -/
def missingChildDataCbMsg : String :=
  "Callback creating object did not provide any object data."

/-- Panic message: callback returned data without creating an object. -/
def unexpectedChildDataMsg : String :=
  "An object data was returned from a callback not creating any object"

/-- Observable effects of a dispatch round: callback invocations and FD
closes. -/
inductive DispatchAction where
  | invokeEvent (sender : ObjectId) (opcode : Nat)
  | closeFd (f : Int)
  | invokeDestroyed (oid : ObjectId)
deriving DecidableEq

/-- The file descriptor carried by an argument, if any. -/
def fdOf {α : Type} : Argument α → Option Int
  | Argument.fd f => some f
  | _ => none

/-- Result of converting one inbound argument. -/
inductive ArgStepResult where
  | panic (s : String)
  | err (e : WaylandError) (h : Handle)
  | ok (a : Argument ObjectId) (h : Handle) (idx : Nat) (created : Option ObjectId)
deriving DecidableEq

/-- Conversion of one inbound event argument (mod.rs lines 266-356): scalars
pass through; non-null object references are resolved against the map
(unknown id latches a protocol error) and interface-checked against the
descriptor when it pins one (`idx` is the `arg_interfaces` iterator
position); a NewId argument creates the child record — evicting a
client-destroyed record in the server id range first — inheriting the
receiver's version and `client_destroyed` flag, wearing the uninitialised
capability and a fresh serial; an `insert_at` collision latches a protocol
error. -/
def processOneArg (db : IfaceDb) (desc : MessageDesc) (receiver : Object)
    (h : Handle) (idx : Nat) (created : Option ObjectId) :
    Argument Nat → ArgStepResult
  | Argument.array a => ArgStepResult.ok (Argument.array a) h idx created
  | Argument.int i => ArgStepResult.ok (Argument.int i) h idx created
  | Argument.uint u => ArgStepResult.ok (Argument.uint u) h idx created
  | Argument.str s => ArgStepResult.ok (Argument.str s) h idx created
  | Argument.fixed f => ArgStepResult.ok (Argument.fixed f) h idx created
  | Argument.fd f => ArgStepResult.ok (Argument.fd f) h idx created
  | Argument.object o =>
    if o ≠ 0 then
      match mapFind h.map o with
      | none =>
        let r := store_and_return_error h
          (WaylandError.protocol ⟨0, 0, emptyStr, unknownObjectMsg o⟩)
        ArgStepResult.err r.1 r.2
      | some obj =>
        match desc.arg_interfaces.get? idx with
        | some next_interface =>
          if ¬ same_interface_or_anonymous next_interface obj.interface then
            let r := store_and_return_error h
              (WaylandError.protocol ⟨0, 0, emptyStr, eventIfaceMismatchMsg⟩)
            ArgStepResult.err r.1 r.2
          else
            ArgStepResult.ok (Argument.object ⟨obj.data.serial, o, obj.interface⟩)
              h (idx + 1) created
        | none =>
          ArgStepResult.ok (Argument.object ⟨obj.data.serial, o, obj.interface⟩)
            h (idx + 1) created
    else ArgStepResult.ok (Argument.object ⟨0, 0, ANONYMOUS⟩) h idx created
  | Argument.newid new_id =>
    match desc.child_interface with
    | none => ArgStepResult.panic eventNoChildIfaceMsg
    | some child_interface =>
      -- if this id belonged to a now client-destroyed server object, evict it
      let m0 :=
        if SERVER_ID_LIMIT ≤ new_id ∧
            (((mapFind h.map new_id).map fun o => o.data.client_destroyed).getD false) = true
        then mapRemove h.map new_id
        else h.map
      let sh := next_serial { h with map := m0 }
      let child_obj : Object :=
        ⟨child_interface, receiver.version,
         ⟨receiver.data.client_destroyed, false, UData.uninit, sh.1⟩⟩
      let child_id : ObjectId := ⟨sh.1, new_id, child_interface⟩
      match mapInsertAt sh.2.map new_id child_obj with
      | none =>
        let r := store_and_return_error sh.2
          (WaylandError.protocol
            ⟨0, 0, emptyStr, invalidNewIdMsg (db child_interface).name new_id⟩)
        ArgStepResult.err r.1 r.2
      | some m2 =>
        ArgStepResult.ok (Argument.newid child_id) { sh.2 with map := m2 }
          idx (some child_id)

/-- Result of converting a whole inbound argument list. -/
inductive ArgsResult where
  | panic (s : String)
  | err (e : WaylandError) (h : Handle)
  | ok (args : List (Argument ObjectId)) (h : Handle) (created : Option ObjectId)
deriving DecidableEq

/-- The argument-conversion loop of `Backend::dispatch_events` (mod.rs lines
264-356), folding `processOneArg` left to right. -/
def processArgs (db : IfaceDb) (desc : MessageDesc) (receiver : Object) :
    Handle → Nat → Option ObjectId → List (Argument Nat) → ArgsResult
  | h, _, created, [] => ArgsResult.ok [] h created
  | h, idx, created, a :: rest =>
    match processOneArg db desc receiver h idx created a with
    | ArgStepResult.panic s => ArgsResult.panic s
    | ArgStepResult.err e h' => ArgsResult.err e h'
    | ArgStepResult.ok a' h' idx' created' =>
      match processArgs db desc receiver h' idx' created' rest with
      | ArgsResult.ok args h'' created'' => ArgsResult.ok (a' :: args) h'' created''
      | r => r

/-- The record mutator of the delete-id event: set `server_destroyed`
(the closure at mod.rs line 845). -/
def markServerDestroyed (r : Object) : Object :=
  { r with data := { r.data with server_destroyed := true } }

/-- Result of `Handle::handle_display_event`. -/
inductive DisplayResult where
  | panic (s : String)
  | err (e : WaylandError) (h : Handle)
  | ok (h : Handle)
deriving DecidableEq

/-- `Handle::handle_display_event` (mod.rs lines 817-859).  Opcode 0
(`wl_display.error`): latch a protocol error carrying the offending object's
interface name (`<unknown>` if absent) and return it.  Opcode 1
(`wl_display.delete_id`): set `server_destroyed` on the record at the carried
id; if `client_destroyed` was already set, remove the record.  Anything else
is `unreachable!()`. -/
def handle_display_event (db : IfaceDb) (h : Handle) (message : Message Nat) :
    DisplayResult :=
  match message.opcode with
  | 0 =>
    match message.args with
    | [Argument.object obj, Argument.uint code, Argument.str s] =>
      let iname :=
        ((mapFind h.map obj).map fun o => (db o.interface).name).getD unknownIfaceName
      let r := store_and_return_error h
        (WaylandError.protocol ⟨code, obj, iname, s⟩)
      DisplayResult.err r.1 r.2
    | _ => DisplayResult.panic unreachableMsg
  | 1 =>
    match message.args with
    | [Argument.uint i] =>
      let client_destroyed :=
        ((mapFind h.map i).map fun o => o.data.client_destroyed).getD false
      let m1 := mapWith h.map i markServerDestroyed
      let m2 := if client_destroyed then mapRemove m1 i else m1
      DisplayResult.ok { h with map := m2 }
    | _ => DisplayResult.panic unreachableMsg
  | _ => DisplayResult.panic unreachableMsg

/-- Result of handling one parsed inbound message. -/
inductive StepResult where
  | panic (s : String)
  | err (e : WaylandError) (h : Handle) (tr : List DispatchAction)
  | next (h : Handle) (tr : List DispatchAction) (counted : Bool)
deriving DecidableEq

/-- Handling of one parsed message inside `Backend::dispatch_events` (mod.rs
lines 250-426): receiver and event-descriptor lookup (`unwrap`s — the parser
only accepted resolvable messages), display short-circuit for sender id 1,
argument conversion, discarding (with FD closing) of events to
client-destroyed receivers, callback invocation (recorded as a trace action;
the callback's returned child data is the oracle `ret`), destructor handling,
and reconciliation of the created child with the returned data.  `counted`
reports whether the message counts into the dispatched total. -/
def dispatch_step (db : IfaceDb) (h : Handle) (m : Message Nat)
    (ret : Option UData) : StepResult :=
  match mapFind h.map m.sender_id with
  | none => StepResult.panic recvUnwrapMsg
  | some receiver =>
  match (db receiver.interface).events.get? m.opcode with
  | none => StepResult.panic descUnwrapMsg
  | some message_desc =>
  if m.sender_id = 1 then
    match handle_display_event db h m with
    | DisplayResult.panic s => StepResult.panic s
    | DisplayResult.err e h' => StepResult.err e h' []
    | DisplayResult.ok h' => StepResult.next h' [] false
  else
  match processArgs db message_desc receiver h 0 none m.args with
  | ArgsResult.panic s => StepResult.panic s
  | ArgsResult.err e h' => StepResult.err e h' []
  | ArgsResult.ok args h1 created =>
  if receiver.data.client_destroyed then
    -- swallow the event, closing any carried FDs
    StepResult.next h1 ((args.filterMap fdOf).map DispatchAction.closeFd) false
  else
    let sender_oid : ObjectId :=
      ⟨receiver.data.serial, m.sender_id, receiver.interface⟩
    let tr0 := [DispatchAction.invokeEvent sender_oid m.opcode]
    if message_desc.is_destructor ∧ (mapFind h1.map m.sender_id).isNone then
      StepResult.panic destructorUnwrapMsg
    else
    let h2 := if message_desc.is_destructor then
        { h1 with map := mapWith h1.map m.sender_id fun o =>
            { o with data :=
              { o.data with server_destroyed := true, client_destroyed := true } } }
      else h1
    let tr1 := if message_desc.is_destructor then
        tr0 ++ [DispatchAction.invokeDestroyed sender_oid]
      else tr0
    match created, ret with
    | some child_id, some child_data =>
      if (mapFind h2.map child_id.id).isNone then
        StepResult.panic reconcileUnwrapMsg
      else
        StepResult.next
          { h2 with map := mapWith h2.map child_id.id fun o =>
              { o with data := { o.data with user_data := child_data } } }
          tr1 true
    | none, none => StepResult.next h2 tr1 true
    | some _, none => StepResult.panic missingChildDataCbMsg
    | none, some _ => StepResult.panic unexpectedChildDataMsg

/-- One iteration's worth of input to the dispatch loop: a parsed message
(with the callback oracle), a missing-data parse outcome followed by the IO
result of `fill_incoming_buffers`, or a malformed message. -/
inductive DispatchInput where
  | read (m : Message Nat) (ret : Option UData)
  | needData (fill : Option IoErr)
  | malformed
deriving DecidableEq

/-- Overall result of `Backend::dispatch_events`.  `outOfInput` marks
exhaustion of the modelled socket script (the real loop only exits through
the other constructors). -/
inductive DispatchResult where
  | panic (s : String)
  | err (e : WaylandError) (h : Handle) (tr : List DispatchAction)
  | ok (n : Nat) (h : Handle) (tr : List DispatchAction)
  | outOfInput (n : Nat) (h : Handle) (tr : List DispatchAction)
deriving DecidableEq

/-- The loop of `Backend::dispatch_events` (mod.rs lines 216-427): on missing
data, refill — a non-WouldBlock IO error latches and returns, WouldBlock
returns the count when at least one message was dispatched and surfaces the
(unlatched) error otherwise; a malformed message latches a protocol error;
a parsed message goes through `dispatch_step`. -/
def dispatch_loop (db : IfaceDb) :
    Handle → Nat → List DispatchAction → List DispatchInput → DispatchResult
  | h, n, tr, [] => DispatchResult.outOfInput n h tr
  | h, n, tr, DispatchInput.needData fill :: rest =>
    match fill with
    | none => dispatch_loop db h n tr rest
    | some e =>
      if e ≠ IoErr.wouldBlock then
        let r := store_and_return_error h (WaylandError.io e)
        DispatchResult.err r.1 r.2 tr
      else if n = 0 then DispatchResult.err (WaylandError.io e) h tr
      else DispatchResult.ok n h tr
  | h, n, tr, DispatchInput.malformed :: _ =>
    let r := store_and_return_error h
      (WaylandError.protocol ⟨0, 0, emptyStr, malformedMsg⟩)
    DispatchResult.err r.1 r.2 tr
  | h, n, tr, DispatchInput.read m ret :: rest =>
    match dispatch_step db h m ret with
    | StepResult.panic s => DispatchResult.panic s
    | StepResult.err e h' tr' => DispatchResult.err e h' (tr ++ tr')
    | StepResult.next h' tr' counted =>
      dispatch_loop db h' (if counted then n + 1 else n) (tr ++ tr') rest

/-- `Backend::dispatch_events` (mod.rs lines 213-429): refuse when the latch
is set, then run the loop with a dispatched count of 0. -/
def dispatch_events (db : IfaceDb) (h : Handle) (script : List DispatchInput) :
    DispatchResult :=
  match no_last_error h with
  | some e => DispatchResult.err e h []
  | none => dispatch_loop db h 0 [] script

/-! ### Helper lemmas about the object map -/

theorem mapFind_remove_self (m : List (Nat × Object)) (i : Nat) :
    mapFind (mapRemove m i) i = none := by
  induction m with
  | nil => rfl
  | cons p rest ih =>
    obtain ⟨k, o⟩ := p
    by_cases hk : k = i
    · simpa [mapRemove, hk] using ih
    · simpa [mapRemove, mapFind, hk] using ih

theorem mapFind_remove_ne (m : List (Nat × Object)) (i j : Nat)
    (hij : i ≠ j) : mapFind (mapRemove m i) j = mapFind m j := by
  induction m with
  | nil => rfl
  | cons p rest ih =>
    obtain ⟨k, o⟩ := p
    by_cases hk : k = i
    · subst hk
      simpa [mapRemove, mapFind, hij] using ih
    · by_cases hj : k = j
      · simp [mapRemove, mapFind, hk, hj, Ne.symm hij]
      · simpa [mapRemove, mapFind, hk, hj] using ih

theorem mapFind_mapWith (m : List (Nat × Object)) (i j : Nat)
    (f : Object → Object) :
    mapFind (mapWith m i f) j =
      if i = j then (mapFind m i).map f else mapFind m j := by
  induction m with
  | nil => simp [mapWith, mapFind]
  | cons p rest ih =>
    obtain ⟨k, o⟩ := p
    by_cases hk : k = i
    · subst hk
      by_cases hj : k = j
      · subst hj
        simp [mapWith, mapFind]
      · simp [mapWith, mapFind, hj, ih]
    · by_cases hj : k = j
      · subst hj
        have hij : i ≠ k := fun hcontra => hk hcontra.symm
        simp [mapWith, mapFind, hk, hij]
      · simp [mapWith, mapFind, hk, hj, ih]

theorem mapWith_absent (m : List (Nat × Object)) (i : Nat)
    (f : Object → Object) (habs : mapFind m i = none) :
    mapWith m i f = m := by
  induction m with
  | nil => rfl
  | cons p rest ih =>
    obtain ⟨k, o⟩ := p
    by_cases hk : k = i
    · subst hk
      simp [mapFind] at habs
    · simp [mapFind, hk] at habs
      simp [mapWith, hk, ih habs]

theorem mapInsertAt_of_absent (m : List (Nat × Object)) (i : Nat) (o : Object)
    (habs : mapFind m i = none) : mapInsertAt m i o = some ((i, o) :: m) := by
  simp [mapInsertAt, habs]

theorem mapInsertAt_of_present (m : List (Nat × Object)) (i : Nat)
    (o o' : Object) (hp : mapFind m i = some o) : mapInsertAt m i o' = none := by
  simp [mapInsertAt, hp]

theorem mapFind_cons_self (m : List (Nat × Object)) (i : Nat) (o : Object) :
    mapFind ((i, o) :: m) i = some o := by
  simp [mapFind]

theorem mapFind_cons_ne (m : List (Nat × Object)) (i j : Nat) (o : Object)
    (hij : i ≠ j) : mapFind ((i, o) :: m) j = mapFind m j := by
  simp [mapFind, hij]

/-! ### Concrete instances used by witnesses and counterexamples -/

/-- Concrete descriptor: a plain request with no arguments. -/
def reqDesc : MessageDesc := ⟨emptyStr, [], [], none, false⟩

/-- Concrete descriptor: a constructor request with declared child
interface 3. -/
def ctorDesc : MessageDesc := ⟨emptyStr, [ArgumentType.newid false], [], some 3, false⟩

/-- Concrete descriptor: a destructor request. -/
def dtorDesc : MessageDesc := ⟨emptyStr, [], [], none, true⟩

/-- Concrete descriptor: an event carrying one file descriptor. -/
def evFdDesc : MessageDesc := ⟨emptyStr, [ArgumentType.fd], [], none, false⟩

/-- Concrete descriptor: an event creating a child of interface 3. -/
def evCtorDesc : MessageDesc := ⟨emptyStr, [ArgumentType.newid false], [], some 3, false⟩

/-- Concrete interface registry: interface 2 has the three request and two
event descriptors above; every other interface is empty. -/
def testDb : IfaceDb := fun i =>
  if i = 2 then ⟨emptyStr, [reqDesc, ctorDesc, dtorDesc], [evFdDesc, evCtorDesc]⟩
  else ⟨emptyStr, [], []⟩

/-- The root display record installed by `Backend::connect`. -/
def displayRecord : Object := ⟨WL_DISPLAY, 1, ⟨false, false, UData.dumb, 0⟩⟩

/-- A live record of interface 2, version 4, serial 7. -/
def liveObj : Object := ⟨2, 4, ⟨false, false, UData.dumb, 7⟩⟩

/-- A client-destroyed record of interface 2 (serial 7). -/
def destroyedObj : Object := ⟨2, 4, ⟨true, false, UData.user 9, 7⟩⟩

/-- A healthy connection: display at id 1, `liveObj` at id 6. -/
def testHandle : Handle := ⟨[(1, displayRecord), (6, liveObj)], none, 7, none, false⟩

/-- A concrete latched protocol error. -/
def latchedErr : WaylandError := WaylandError.protocol ⟨7, 0, emptyStr, emptyStr⟩

/-- A connection whose error latch is set. -/
def latchedHandle : Handle := ⟨[(1, displayRecord)], some latchedErr, 0, none, false⟩

/-- A connection holding only `destroyedObj` at id 6. -/
def destroyedHandle : Handle := ⟨[(6, destroyedObj)], none, 7, none, false⟩

/-- A client-destroyed (but not server-destroyed) record in the server id
range. -/
def stale : Object := ⟨3, 1, ⟨true, false, UData.uninit, 2⟩⟩

/-- A connection holding `stale` at the server-range id 0xFF000000. -/
def staleHandle : Handle := ⟨[(4278190080, stale)], none, 7, none, false⟩

/-- A live record in the server id range. -/
def liveServerObj : Object := ⟨3, 1, ⟨false, false, UData.user 2, 2⟩⟩

/-- A connection holding `liveServerObj` at the server-range id 0xFF000000. -/
def liveAtServer : Handle := ⟨[(4278190080, liveServerObj)], none, 7, none, false⟩

/-- `testHandle` with a stashed placeholder spec whose version (9) differs
from `liveObj`'s version (4). -/
def badPendHandle : Handle := ⟨[(1, displayRecord), (6, liveObj)], none, 7, some (3, 9), false⟩

/-! ### Claim C10 -/

/-- Claim C10: a display delete-id event whose carried id has no record in
the object map is silently ignored — `handle_display_event` returns `Ok`
with the connection state (map, latch, serials, placeholder slot) completely
unchanged. -/
theorem c10_delete_id_unknown_ignored (db : IfaceDb) (h : Handle) (i : Nat)
    (habs : mapFind h.map i = none) :
    handle_display_event db h ⟨1, 1, [Argument.uint i]⟩ = DisplayResult.ok h := by
  simp [handle_display_event, habs, mapWith_absent h.map i _ habs]

/-- Witness for `c10_delete_id_unknown_ignored` at a concrete state. -/
theorem c10_witness :
    handle_display_event testDb testHandle ⟨1, 1, [Argument.uint 5]⟩ =
      DisplayResult.ok testHandle :=
  c10_delete_id_unknown_ignored testDb testHandle 5 (by decide)

/-! ### Claim C1 -/

/-- Claim C1 (counterexample): with the error latch set, the public Handle
operation `placeholder_id` does not check the latch: it proceeds, mutates
the pending-placeholder slot, and returns no error — refuting the claim that
every public operation refuses to proceed and leaves the state unchanged. -/
theorem c1_counterexample :
    latchedHandle.last_error = some latchedErr ∧
    (placeholder_id latchedHandle (some (3, 1))).2 ≠ latchedHandle ∧
    (placeholder_id latchedHandle (some (3, 1))).2.pending_placeholder = some (3, 1) := by
  decide

/-- Claim C1 (amended): only `Backend::flush` and `Backend::dispatch_events`
check the error latch first; with a latched error each returns that same
error and leaves the state unchanged.  (The Handle-level operations
`send_request`, `info`, `get_data`, `set_data`, `placeholder_id` do not
consult the latch, per the counterexample.) -/
theorem c1_latch_blocks_flush_and_dispatch (db : IfaceDb) (h : Handle)
    (e : WaylandError) (io : Option IoErr) (script : List DispatchInput)
    (hl : h.last_error = some e) :
    flush h io = (OpResult.fail e, h) ∧
    dispatch_events db h script = DispatchResult.err e h [] := by
  constructor
  · simp [flush, no_last_error, hl]
  · simp [dispatch_events, no_last_error, hl]

/-- Witness for `c1_latch_blocks_flush_and_dispatch` at a concrete state. -/
theorem c1_witness :
    flush latchedHandle none = (OpResult.fail latchedErr, latchedHandle) ∧
    dispatch_events testDb latchedHandle [] =
      DispatchResult.err latchedErr latchedHandle [] :=
  c1_latch_blocks_flush_and_dispatch testDb latchedHandle latchedErr none [] rfl

/-! ### Claim C6 -/

/-- Claim C6 (counterexample): `get_data` and `set_data` succeed on a record
whose `client_destroyed` flag is set (the serial matches), whereas the claim
demands `InvalidId` for any destroyed record. -/
theorem c6_counterexample :
    destroyedObj.data.client_destroyed = true ∧
    get_data destroyedHandle ⟨7, 6, 2⟩ = IdResult.ok (UData.user 9) ∧
    (set_data destroyedHandle ⟨7, 6, 2⟩ UData.dumb).1 = IdResult.ok () := by
  decide

/-- Claim C6 (amended): `info` succeeds exactly when the map holds a record
at the protocol id whose serial matches and whose `client_destroyed` flag is
false; `get_data` and `set_data` are gated only on presence and serial match
(no destruction check), and return `InvalidId` in every other case. -/
theorem c6_data_ops_gating (h : Handle) (id : ObjectId) (d : UData) :
    ((∃ r, info h id = IdResult.ok r) ↔
      ∃ o, mapFind h.map id.id = some o ∧ o.data.serial = id.serial ∧
        o.data.client_destroyed = false) ∧
    ((∃ u, get_data h id = IdResult.ok u) ↔
      ∃ o, mapFind h.map id.id = some o ∧ o.data.serial = id.serial) ∧
    ((set_data h id d).1 = IdResult.ok () ↔
      ∃ o, mapFind h.map id.id = some o ∧ o.data.serial = id.serial) := by
  refine ⟨⟨?_, ?_⟩, ⟨?_, ?_⟩, ⟨?_, ?_⟩⟩
  · rintro ⟨r, hr⟩
    simp only [info, get_object] at hr
    cases hfind : mapFind h.map id.id with
    | none => rw [hfind] at hr; cases hr
    | some o =>
      rw [hfind] at hr
      by_cases hs : o.data.serial = id.serial
      · by_cases hc : o.data.client_destroyed
        · simp [hs, hc] at hr
        · exact ⟨o, rfl, hs, by simpa using hc⟩
      · simp [hs] at hr
  · rintro ⟨o, hfind, hs, hc⟩
    exact ⟨⟨id.id, o.interface, o.version⟩, by simp [info, get_object, hfind, hs, hc]⟩
  · rintro ⟨u, hu⟩
    simp only [get_data, get_object] at hu
    cases hfind : mapFind h.map id.id with
    | none => rw [hfind] at hu; cases hu
    | some o =>
      rw [hfind] at hu
      by_cases hs : o.data.serial = id.serial
      · exact ⟨o, rfl, hs⟩
      · simp [hs] at hu
  · rintro ⟨o, hfind, hs⟩
    exact ⟨o.data.user_data, by simp [get_data, get_object, hfind, hs]⟩
  · intro hset
    simp only [set_data] at hset
    cases hfind : mapFind h.map id.id with
    | none => rw [hfind] at hset; cases hset
    | some o =>
      rw [hfind] at hset
      by_cases hs : o.data.serial = id.serial
      · exact ⟨o, rfl, hs⟩
      · simp [hs] at hset
  · rintro ⟨o, hfind, hs⟩
    simp [set_data, hfind, hs]

/-! ### Claim C8 -/

/-- Claim C8: when refilling the incoming buffers fails, the dispatch loop
ends — a WouldBlock error yields `Ok n` when `n ≥ 1` messages were already
dispatched in this call and surfaces the WouldBlock error *without latching*
(state unchanged) when none were; any other refill IO error is latched and
returned. -/
theorem c8_wouldblock_ends_loop (db : IfaceDb) (h : Handle) (n : Nat)
    (tr : List DispatchAction) (rest : List DispatchInput) (e : IoErr) :
    (dispatch_loop db h n tr (DispatchInput.needData (some IoErr.wouldBlock) :: rest) =
      if n = 0 then DispatchResult.err (WaylandError.io IoErr.wouldBlock) h tr
      else DispatchResult.ok n h tr) ∧
    (e ≠ IoErr.wouldBlock →
      dispatch_loop db h n tr (DispatchInput.needData (some e) :: rest) =
        DispatchResult.err (WaylandError.io e)
          { h with last_error := some (WaylandError.io e) } tr) := by
  constructor
  · simp [dispatch_loop]
  · intro hne
    simp [dispatch_loop, hne, store_and_return_error]

/-- Witness for `c8_wouldblock_ends_loop`: both WouldBlock endings (zero and
non-zero dispatched counts) and a latched hard error, at concrete states. -/
theorem c8_witness :
    (dispatch_loop testDb testHandle 0 [] [DispatchInput.needData (some IoErr.wouldBlock)] =
      DispatchResult.err (WaylandError.io IoErr.wouldBlock) testHandle []) ∧
    (dispatch_loop testDb testHandle 3 [] [DispatchInput.needData (some IoErr.wouldBlock)] =
      DispatchResult.ok 3 testHandle []) ∧
    (dispatch_loop testDb testHandle 0 [] [DispatchInput.needData (some (IoErr.other 5))] =
      DispatchResult.err (WaylandError.io (IoErr.other 5))
        { testHandle with last_error := some (WaylandError.io (IoErr.other 5)) } []) := by
  refine ⟨?_, ?_, ?_⟩
  · exact ((c8_wouldblock_ends_loop testDb testHandle 0 [] [] IoErr.wouldBlock).1).trans (by decide)
  · exact ((c8_wouldblock_ends_loop testDb testHandle 3 [] [] IoErr.wouldBlock).1).trans (by decide)
  · exact (c8_wouldblock_ends_loop testDb testHandle 0 [] [] (IoErr.other 5)).2 (by decide)

/-! ### Claim C7 -/

/-- Claim C7 (code bug): the guard on the NewId argument of an
object-creating request is `if !p.id == 0 { panic }` in the source — a
*bitwise* `u32` negation, so it fires only when `p.id == u32::MAX`.  Passing
a non-placeholder NewId with protocol id 5 therefore does *not* panic: the
request is sent and `Ok` is returned, contradicting the claim (and the
function's own documentation and panic message, which demand a placeholder).
The companion conjuncts show that 5 is non-zero — so the claim requires a
panic — and that the code does panic at `u32::MAX`, matching `u32_not`. -/
theorem c7_nonzero_newid_not_rejected :
    send_request testDb testHandle ⟨7, 6, 2⟩ 1 [Argument.newid ⟨0, 5, 0⟩]
        (some (UData.user 1)) none =
      SendResult.ok ⟨8, 2, 3⟩
        ⟨[(2, ⟨3, 4, ⟨false, false, UData.user 1, 8⟩⟩), (1, displayRecord), (6, liveObj)],
         none, 8, none, false⟩ ∧
    (5 : Nat) ≠ 0 ∧ u32_not 5 ≠ 0 ∧
    send_request testDb testHandle ⟨7, 6, 2⟩ 1 [Argument.newid ⟨0, 4294967295, 0⟩]
        (some (UData.user 1)) none = SendResult.panic notAPlaceholderMsg := by
  decide

/-! ### Claim C2 -/

/-- Claim C2: for every `send_request` that would succeed, a failing socket
write changes nothing but the latch — the IO error is stored in `last_error`
and not propagated, and the call still returns `Ok` with exactly the id it
would have returned on a successful write (the created child's id when the
request created an object, the null id otherwise). -/
theorem c2_send_latches_write_error (db : IfaceDb) (h : Handle)
    (id : ObjectId) (opcode : Nat) (args : List (Argument ObjectId))
    (data : Option UData) (e : IoErr) (rid : ObjectId) (h' : Handle)
    (hok : send_request db h id opcode args data none = SendResult.ok rid h') :
    send_request db h id opcode args data (some e) =
      SendResult.ok rid { h' with last_error := some (WaylandError.io e) } := by
  unfold send_request at hok ⊢
  cases hcore : send_request_core db h id opcode args data with
  | panic s => simp_all
  | invalid h0 => simp_all
  | ready h3 child is_destr =>
    rw [hcore] at hok
    cases child with
    | none =>
      cases is_destr <;> (injection hok with h1 h2; subst h1; subst h2; rfl)
    | some c =>
      obtain ⟨cid, cser, cif⟩ := c
      cases is_destr <;> (injection hok with h1 h2; subst h1; subst h2; rfl)

/-- Witness for `c2_send_latches_write_error`: a plain request on a healthy
connection; with a failing write the same null id comes back and only the
latch changes. -/
theorem c2_witness :
    send_request testDb testHandle ⟨7, 6, 2⟩ 0 [] none (some (IoErr.other 4)) =
      SendResult.ok null_id
        { testHandle with last_error := some (WaylandError.io (IoErr.other 4)) } :=
  c2_send_latches_write_error testDb testHandle ⟨7, 6, 2⟩ 0 [] none
    (IoErr.other 4) null_id testHandle (by decide)

/-! ### Claim C9 -/

/-- Claim C9: when a stashed placeholder spec `(iface, v)` meets an
object-creating request: if the descriptor declares a child interface `ci`,
the resolution panics unless `iface` is `ci` *and* `v` equals the sender
object's version (the stash is checked against the sender's version); if the
descriptor declares no child interface, the stashed pair is used unchecked.
The last conjunct propagates the panic through `send_request` itself once
sender validation and the signature check pass. -/
theorem c9_placeholder_validation (desc : MessageDesc) (iface v sv : Nat)
    (hn : has_newid desc.signature = true) :
    (∀ ci, desc.child_interface = some ci →
      resolve_child_spec desc (some (iface, v)) sv =
        (if same_interface ci iface = true then
           if v = sv then SpecResult.ok (some (iface, v))
           else SpecResult.panic wrongPlaceholderVersionMsg
         else SpecResult.panic wrongPlaceholderIfaceMsg)) ∧
    (desc.child_interface = none →
      resolve_child_spec desc (some (iface, v)) sv =
        SpecResult.ok (some (iface, v))) ∧
    (∀ (db : IfaceDb) (h : Handle) (id : ObjectId) (opcode : Nat)
        (args : List (Argument ObjectId)) (data : Option UData)
        (wr : Option IoErr) (object : Object) (s : String),
      get_object h id = IdResult.ok object →
      object.data.client_destroyed = false →
      (db object.interface).requests.get? opcode = some desc →
      check_for_signature desc.signature args = true →
      h.pending_placeholder = some (iface, v) →
      object.version = sv →
      resolve_child_spec desc (some (iface, v)) sv = SpecResult.panic s →
      send_request db h id opcode args data wr = SendResult.panic s) := by
  refine ⟨?_, ?_, ?_⟩
  · intro ci hci
    by_cases hsi : same_interface ci iface = true
    · by_cases hv : v = sv
      · simp [resolve_child_spec, hn, hci, hsi, hv]
      · simp [resolve_child_spec, hn, hci, hsi, hv]
    · simp [resolve_child_spec, hn, hci, hsi]
  · intro hci
    simp [resolve_child_spec, hn, hci]
  · intro db h id opcode args data wr object s hobj hcd hdesc hsig hpend hver hres
    have hres' : resolve_child_spec desc h.pending_placeholder object.version =
        SpecResult.panic s := by
      rw [hpend, hver]; exact hres
    simp only [send_request, send_request_core, hobj, hcd, hdesc, hsig, hres',
      Bool.false_eq_true, if_false, not_true, Bool.not_eq_true, ite_false]

/-- Witness for `c9_placeholder_validation`: the matching spec resolves, the
version-mismatched spec panics, and the panic propagates through a concrete
`send_request`. -/
theorem c9_witness :
    resolve_child_spec ctorDesc (some (3, 4)) 4 = SpecResult.ok (some (3, 4)) ∧
    resolve_child_spec ctorDesc (some (3, 9)) 4 =
      SpecResult.panic wrongPlaceholderVersionMsg ∧
    send_request testDb badPendHandle ⟨7, 6, 2⟩ 1 [Argument.newid ⟨0, 0, 3⟩]
        (some (UData.user 1)) none =
      SendResult.panic wrongPlaceholderVersionMsg := by
  refine ⟨?_, ?_, ?_⟩
  · exact (((c9_placeholder_validation ctorDesc 3 4 4 (by decide)).1 3 rfl).trans (by decide))
  · exact (((c9_placeholder_validation ctorDesc 3 9 4 (by decide)).1 3 rfl).trans (by decide))
  · exact (c9_placeholder_validation ctorDesc 3 9 4 (by decide)).2.2 testDb
      badPendHandle ⟨7, 6, 2⟩ 1 [Argument.newid ⟨0, 0, 3⟩] (some (UData.user 1))
      none liveObj wrongPlaceholderVersionMsg (by decide) (by decide) (by decide)
      (by decide) (by decide) (by decide) (by decide)

/-! ### Claim C5 -/

/-- Argument conversion preserves the carried file descriptor (if any):
scalar arguments pass through, and object/NewId conversions never produce an
fd argument. -/
theorem processOneArg_fd (db : IfaceDb) (desc : MessageDesc)
    (receiver : Object) (h : Handle) (idx : Nat) (created : Option ObjectId)
    (a : Argument Nat) (a' : Argument ObjectId) (h' : Handle) (idx' : Nat)
    (created' : Option ObjectId)
    (hs : processOneArg db desc receiver h idx created a =
      ArgStepResult.ok a' h' idx' created') :
    fdOf a' = fdOf a := by
  cases a <;> simp only [processOneArg] at hs <;>
    (try (repeat' split at hs)) <;> (cases hs <;> rfl)

/-- `processArgs` preserves the list of carried file descriptors. -/
theorem processArgs_fd (db : IfaceDb) (desc : MessageDesc) (receiver : Object) :
    ∀ (args : List (Argument Nat)) (h : Handle) (idx : Nat)
      (created : Option ObjectId) (args' : List (Argument ObjectId))
      (h' : Handle) (created' : Option ObjectId),
      processArgs db desc receiver h idx created args =
        ArgsResult.ok args' h' created' →
      args'.filterMap fdOf = args.filterMap fdOf := by
  intro args
  induction args with
  | nil =>
    intro h idx created args' h' created' hp
    simp only [processArgs] at hp
    cases hp; rfl
  | cons a rest ih =>
    intro h idx created args' h' created' hp
    simp only [processArgs] at hp
    cases hone : processOneArg db desc receiver h idx created a with
    | panic s => simp only [hone] at hp; cases hp
    | err e h0 => simp only [hone] at hp; cases hp
    | ok a1 h1 idx1 created1 =>
      cases hrest : processArgs db desc receiver h1 idx1 created1 rest with
      | panic s => simp only [hone, hrest] at hp; cases hp
      | err e h0 => simp only [hone, hrest] at hp; cases hp
      | ok args2 h2 created2 =>
        simp only [hone, hrest] at hp
        cases hp
        have hfd := processOneArg_fd db desc receiver h idx created a a1 h1
          idx1 created1 hone
        have hr := ih h1 idx1 created1 args2 _ _ hrest
        cases hfa : fdOf a <;>
          simp [List.filterMap_cons, hfd, hfa, hr]

/-- Claim C5: once `client_destroyed` is set on a record, the dispatch loop
never invokes that object's `event` callback again — any inbound message
addressed to it is discarded without counting, every file descriptor the
message carries is closed, and the error paths of the same step invoke
nothing either. -/
theorem c5_destroyed_receiver_swallows (db : IfaceDb) (h : Handle)
    (m : Message Nat) (ret : Option UData) (receiver : Object)
    (hrecv : mapFind h.map m.sender_id = some receiver)
    (hnot1 : m.sender_id ≠ 1)
    (hcd : receiver.data.client_destroyed = true) :
    (∀ h' tr c, dispatch_step db h m ret = StepResult.next h' tr c →
      c = false ∧ tr = (m.args.filterMap fdOf).map DispatchAction.closeFd) ∧
    (∀ e h' tr, dispatch_step db h m ret = StepResult.err e h' tr → tr = []) := by
  cases hdesc : (db receiver.interface).events.get? m.opcode with
  | none =>
    have hstep : dispatch_step db h m ret = StepResult.panic descUnwrapMsg := by
      simp only [dispatch_step, hrecv, hdesc]
    exact ⟨(fun h' tr c hst => by rw [hstep] at hst; cases hst),
           (fun e h' tr hst => by rw [hstep] at hst; cases hst)⟩
  | some desc =>
    cases hargs : processArgs db desc receiver h 0 none m.args with
    | panic s =>
      have hstep : dispatch_step db h m ret = StepResult.panic s := by
        simp only [dispatch_step, hrecv, hdesc, hnot1, hargs, if_false]
      exact ⟨(fun h' tr c hst => by rw [hstep] at hst; cases hst),
             (fun e h' tr hst => by rw [hstep] at hst; cases hst)⟩
    | err e0 h0 =>
      have hstep : dispatch_step db h m ret = StepResult.err e0 h0 [] := by
        simp only [dispatch_step, hrecv, hdesc, hnot1, hargs, if_false]
      exact ⟨(fun h' tr c hst => by rw [hstep] at hst; cases hst),
             (fun e h' tr hst => by rw [hstep] at hst; cases hst; rfl)⟩
    | ok args1 h1 created =>
      have hstep : dispatch_step db h m ret =
          StepResult.next h1 ((args1.filterMap fdOf).map DispatchAction.closeFd)
            false := by
        simp only [dispatch_step, hrecv, hdesc, hnot1, hargs, hcd, if_true,
          if_false]
      refine ⟨fun h' tr c hst => ?_, fun e h' tr hst => ?_⟩
      · rw [hstep] at hst
        cases hst
        refine ⟨rfl, ?_⟩
        rw [processArgs_fd db desc receiver m.args h 0 none args1 h1 created hargs]
      · rw [hstep] at hst; cases hst

/-- Witness for `c5_destroyed_receiver_swallows`: an fd-carrying event to a
client-destroyed object is discarded, closing the fd. -/
theorem c5_witness :
    false = false ∧
    ([DispatchAction.closeFd 9] : List DispatchAction) =
      (((⟨6, 0, [Argument.fd 9]⟩ : Message Nat)).args.filterMap fdOf).map
        DispatchAction.closeFd :=
  (c5_destroyed_receiver_swallows testDb destroyedHandle
      ⟨6, 0, [Argument.fd 9]⟩ none destroyedObj (by decide) (by decide)
      (by decide)).1
    destroyedHandle [DispatchAction.closeFd 9] false (by decide)

/-! ### Claim C3 -/

/-- Claim C3: during dispatch, for a server-sent NewId whose target id
already holds a record — if that record is client-destroyed and the id is in
the server range, the old record is evicted first and the insertion succeeds
(the slot then holds the fresh child record, inheriting the receiver's
version and `client_destroyed` flag, with the uninitialised capability and a
fresh serial); if the slot holds a live record, a protocol error is latched,
and the dispatch loop returns any such argument-conversion error as its own
result (last conjunct). -/
theorem c3_newid_collision (db : IfaceDb) (desc : MessageDesc)
    (receiver : Object) (h : Handle) (idx : Nat) (created : Option ObjectId)
    (new_id ci : Nat) (old : Object)
    (hci : desc.child_interface = some ci)
    (hold : mapFind h.map new_id = some old) :
    (old.data.client_destroyed = true → SERVER_ID_LIMIT ≤ new_id →
      processOneArg db desc receiver h idx created (Argument.newid new_id) =
        ArgStepResult.ok
          (Argument.newid ⟨(h.last_serial + 1) % 2 ^ 32, new_id, ci⟩)
          { h with
            map := (new_id,
              (⟨ci, receiver.version,
                ⟨receiver.data.client_destroyed, false, UData.uninit,
                 (h.last_serial + 1) % 2 ^ 32⟩⟩ : Object)) ::
              mapRemove h.map new_id,
            last_serial := (h.last_serial + 1) % 2 ^ 32 }
          idx (some ⟨(h.last_serial + 1) % 2 ^ 32, new_id, ci⟩)) ∧
    (old.data.client_destroyed = false →
      processOneArg db desc receiver h idx created (Argument.newid new_id) =
        ArgStepResult.err
          (WaylandError.protocol
            ⟨0, 0, emptyStr, invalidNewIdMsg (db ci).name new_id⟩)
          { h with
            last_serial := (h.last_serial + 1) % 2 ^ 32,
            last_error := some (WaylandError.protocol
              ⟨0, 0, emptyStr, invalidNewIdMsg (db ci).name new_id⟩) }) ∧
    (∀ (m : Message Nat) (ret : Option UData) (rcv : Object)
        (e : WaylandError) (h1 : Handle) (n : Nat)
        (tr : List DispatchAction) (rest : List DispatchInput),
      mapFind h.map m.sender_id = some rcv →
      (db rcv.interface).events.get? m.opcode = some desc →
      m.sender_id ≠ 1 →
      processArgs db desc rcv h 0 none m.args = ArgsResult.err e h1 →
      dispatch_loop db h n tr (DispatchInput.read m ret :: rest) =
        DispatchResult.err e h1 tr) := by
  refine ⟨?_, ?_, ?_⟩
  · intro hcd hge
    simp [processOneArg, hci, hold, hcd, hge, next_serial, mapInsertAt,
      mapFind_remove_self, store_and_return_error]
  · intro hcd
    simp [processOneArg, hci, hold, hcd, next_serial, mapInsertAt,
      store_and_return_error]
  · intro m ret rcv e h1 n tr rest hrecv hdesc hnot1 hargs
    have hstep : dispatch_step db h m ret = StepResult.err e h1 [] := by
      simp only [dispatch_step, hrecv, hdesc, hnot1, hargs, if_false]
    simp [dispatch_loop, hstep]

/-- Witness for `c3_newid_collision` at concrete states: eviction and
successful insertion for a client-destroyed server-range record, latched
protocol error for a live one. -/
theorem c3_witness :
    (processOneArg testDb evCtorDesc liveObj staleHandle 0 none
        (Argument.newid 4278190080) =
      ArgStepResult.ok (Argument.newid ⟨8, 4278190080, 3⟩)
        ⟨[(4278190080, ⟨3, 4, ⟨false, false, UData.uninit, 8⟩⟩)],
         none, 8, none, false⟩
        0 (some ⟨8, 4278190080, 3⟩)) ∧
    (processOneArg testDb evCtorDesc liveObj liveAtServer 0 none
        (Argument.newid 4278190080) =
      ArgStepResult.err
        (WaylandError.protocol
          ⟨0, 0, emptyStr, invalidNewIdMsg (testDb 3).name 4278190080⟩)
        { liveAtServer with
          last_serial := 8,
          last_error := some (WaylandError.protocol
            ⟨0, 0, emptyStr, invalidNewIdMsg (testDb 3).name 4278190080⟩) }) := by
  constructor
  · exact ((c3_newid_collision testDb evCtorDesc liveObj staleHandle 0 none
      4278190080 3 stale rfl (by decide)).1 rfl (by decide)).trans (by decide)
  · exact ((c3_newid_collision testDb evCtorDesc liveObj liveAtServer 0 none
      4278190080 3 liveServerObj rfl (by decide)).2.1 rfl).trans (by decide)

/-! ### Claim C4 -/

/-- `mapWith` never drops a key. -/
theorem isSome_mapFind_mapWith (m : List (Nat × Object)) (i k : Nat)
    (f : Object → Object) (hk : (mapFind m k).isSome) :
    (mapFind (mapWith m i f) k).isSome := by
  rw [mapFind_mapWith]
  by_cases hik : i = k
  · subst hik
    simpa using hk
  · simpa [hik] using hk

/-- Prepending an entry never drops a key. -/
theorem isSome_mapFind_cons (m : List (Nat × Object)) (i k : Nat) (o : Object)
    (hk : (mapFind m k).isSome) : (mapFind ((i, o) :: m) k).isSome := by
  by_cases hik : i = k
  · subst hik
    simp [mapFind]
  · simpa [mapFind, hik] using hk

/-- The pre-write stages of `send_request` never drop a key from the map
(they only prepend the created child and mutate records in place). -/
theorem send_request_core_keys (db : IfaceDb) (h : Handle) (id : ObjectId)
    (opcode : Nat) (args : List (Argument ObjectId)) (data : Option UData)
    (h3 : Handle) (child : Option (Nat × Nat × Nat)) (is_destr : Bool)
    (hcore : send_request_core db h id opcode args data =
      CoreResult.ready h3 child is_destr) :
    ∀ k, (mapFind h.map k).isSome → (mapFind h3.map k).isSome := by
  intro k hk
  simp only [send_request_core] at hcore
  repeat' split at hcore
  all_goals (try cases hcore)
  all_goals simp_all [clientInsertNew, next_serial]
  all_goals
    exact isSome_mapFind_mapWith _ _ _ _ (isSome_mapFind_cons _ _ _ _ hk)

/-- Claim C4 (counterexample): the NewId eviction removes a record whose
`server_destroyed` flag is still false — the record `stale`
(`client_destroyed = true`, `server_destroyed = false`) is present at the
server-range id before the step and the slot holds a different, fresh record
afterwards.  This refutes "a record is removed iff both `client_destroyed`
and `server_destroyed` are true". -/
theorem c4_counterexample :
    stale.data.client_destroyed = true ∧
    stale.data.server_destroyed = false ∧
    mapFind staleHandle.map 4278190080 = some stale ∧
    processOneArg testDb evCtorDesc liveObj staleHandle 0 none
        (Argument.newid 4278190080) =
      ArgStepResult.ok (Argument.newid ⟨8, 4278190080, 3⟩)
        ⟨[(4278190080, ⟨3, 4, ⟨false, false, UData.uninit, 8⟩⟩)],
         none, 8, none, false⟩
        0 (some ⟨8, 4278190080, 3⟩) ∧
    mapFind [(4278190080, (⟨3, 4, ⟨false, false, UData.uninit, 8⟩⟩ : Object))]
        4278190080 ≠ some stale := by
  decide

/-- Claim C4 (amended): a record is removed only when its `client_destroyed`
flag is true.  Part 1: the display delete-id event sets `server_destroyed`
on the record at the carried id, removes it exactly when `client_destroyed`
was already true, and touches no other slot.  Part 2: the argument
conversion of the dispatch loop changes or drops an existing record only via
the NewId eviction, which requires `client_destroyed = true` and a
server-range id (`server_destroyed` need not be set), and its error paths
leave the map unchanged.  Part 3: a successful `send_request` never deletes
an id from the map. -/
theorem c4_removal_requires_client_destroyed :
    (∀ (db : IfaceDb) (h : Handle) (i : Nat) (o : Object),
      mapFind h.map i = some o →
      ∃ h', handle_display_event db h ⟨1, 1, [Argument.uint i]⟩ =
          DisplayResult.ok h' ∧
        (o.data.client_destroyed = true → mapFind h'.map i = none) ∧
        (o.data.client_destroyed = false →
          mapFind h'.map i =
            some { o with data := { o.data with server_destroyed := true } }) ∧
        (∀ j, j ≠ i → mapFind h'.map j = mapFind h.map j)) ∧
    (∀ (db : IfaceDb) (desc : MessageDesc) (receiver : Object) (h : Handle)
        (idx : Nat) (created : Option ObjectId) (a : Argument Nat),
      (∀ a' h' idx' created',
        processOneArg db desc receiver h idx created a =
          ArgStepResult.ok a' h' idx' created' →
        ∀ k o, mapFind h.map k = some o →
          mapFind h'.map k = some o ∨
            (o.data.client_destroyed = true ∧ SERVER_ID_LIMIT ≤ k)) ∧
      (∀ e h',
        processOneArg db desc receiver h idx created a =
          ArgStepResult.err e h' →
        ∀ k o, mapFind h.map k = some o → mapFind h'.map k = some o)) ∧
    (∀ (db : IfaceDb) (h : Handle) (id : ObjectId) (opcode : Nat)
        (args : List (Argument ObjectId)) (data : Option UData)
        (wr : Option IoErr) (rid : ObjectId) (h' : Handle),
      send_request db h id opcode args data wr = SendResult.ok rid h' →
      ∀ k, (mapFind h.map k).isSome → (mapFind h'.map k).isSome) := by
  refine ⟨?_, ?_, ?_⟩
  · intro db h i o ho
    refine ⟨{ h with map :=
        (if o.data.client_destroyed = true then
          mapRemove (mapWith h.map i markServerDestroyed) i
        else mapWith h.map i markServerDestroyed) },
      by simp [handle_display_event, ho], ?_, ?_, ?_⟩
    · intro hcd
      show mapFind (if o.data.client_destroyed = true then
          mapRemove (mapWith h.map i markServerDestroyed) i
        else mapWith h.map i markServerDestroyed) i = none
      rw [if_pos hcd]
      exact mapFind_remove_self _ _
    · intro hcd
      show mapFind (if o.data.client_destroyed = true then
          mapRemove (mapWith h.map i markServerDestroyed) i
        else mapWith h.map i markServerDestroyed) i =
        some { o with data := { o.data with server_destroyed := true } }
      rw [if_neg (by simp [hcd]), mapFind_mapWith, if_pos rfl, ho]
      simp [markServerDestroyed]
    · intro j hj
      have hij : i ≠ j := fun hh => hj hh.symm
      show mapFind (if o.data.client_destroyed = true then
          mapRemove (mapWith h.map i markServerDestroyed) i
        else mapWith h.map i markServerDestroyed) j = mapFind h.map j
      by_cases hcd : o.data.client_destroyed = true
      · rw [if_pos hcd, mapFind_remove_ne _ _ _ hij, mapFind_mapWith, if_neg hij]
      · rw [if_neg hcd, mapFind_mapWith, if_neg hij]
  · intro db desc receiver h idx created a
    constructor
    · intro a' h' idx' created' hstep k o hk
      cases a with
      | array v => cases hstep; exact Or.inl hk
      | int v => cases hstep; exact Or.inl hk
      | uint v => cases hstep; exact Or.inl hk
      | str v => cases hstep; exact Or.inl hk
      | fixed v => cases hstep; exact Or.inl hk
      | fd v => cases hstep; exact Or.inl hk
      | object ov =>
        simp only [processOneArg] at hstep
        repeat' split at hstep
        all_goals (first | (cases hstep; exact Or.inl hk) | cases hstep)
      | newid nv =>
        cases hci : desc.child_interface with
        | none => simp only [processOneArg, hci] at hstep; cases hstep
        | some ci =>
          simp only [processOneArg, next_serial, hci] at hstep
          by_cases hcond : SERVER_ID_LIMIT ≤ nv ∧
              (Option.map (fun o => o.data.client_destroyed)
                (mapFind h.map nv)).getD false = true
          · rw [if_pos hcond,
              mapInsertAt_of_absent _ _ _ (mapFind_remove_self h.map nv)]
              at hstep
            cases hstep
            by_cases hkn : k = nv
            · subst hkn
              rw [hk] at hcond
              right
              exact ⟨by simpa using hcond.2, hcond.1⟩
            · left
              rw [mapFind_cons_ne _ _ _ _ (fun hnk => hkn hnk.symm),
                mapFind_remove_ne _ _ _ (fun hnk => hkn hnk.symm)]
              exact hk
          · rw [if_neg hcond] at hstep
            cases hins : mapInsertAt h.map nv
                (⟨ci, receiver.version, ⟨receiver.data.client_destroyed, false,
                  UData.uninit, (h.last_serial + 1) % 2 ^ 32⟩⟩ : Object) with
            | none => rw [hins] at hstep; cases hstep
            | some m2 =>
              rw [hins] at hstep
              cases hstep
              simp only [mapInsertAt] at hins
              split at hins
              · cases hins
              · rename_i habs
                cases hins
                by_cases hkn : k = nv
                · subst hkn
                  rw [hk] at habs
                  simp at habs
                · left
                  rw [mapFind_cons_ne _ _ _ _ (fun hnk => hkn hnk.symm)]
                  exact hk
    · intro e h' hstep k o hk
      cases a with
      | array v => cases hstep
      | int v => cases hstep
      | uint v => cases hstep
      | str v => cases hstep
      | fixed v => cases hstep
      | fd v => cases hstep
      | object ov =>
        simp only [processOneArg, store_and_return_error] at hstep
        repeat' split at hstep
        all_goals (first | (cases hstep; exact hk) | cases hstep)
      | newid nv =>
        cases hci : desc.child_interface with
        | none => simp only [processOneArg, hci] at hstep; cases hstep
        | some ci =>
          simp only [processOneArg, next_serial, store_and_return_error, hci]
            at hstep
          by_cases hcond : SERVER_ID_LIMIT ≤ nv ∧
              (Option.map (fun o => o.data.client_destroyed)
                (mapFind h.map nv)).getD false = true
          · rw [if_pos hcond,
              mapInsertAt_of_absent _ _ _ (mapFind_remove_self h.map nv)]
              at hstep
            cases hstep
          · rw [if_neg hcond] at hstep
            cases hins : mapInsertAt h.map nv
                (⟨ci, receiver.version, ⟨receiver.data.client_destroyed, false,
                  UData.uninit, (h.last_serial + 1) % 2 ^ 32⟩⟩ : Object) with
            | none =>
              rw [hins] at hstep
              cases hstep
              exact hk
            | some m2 => rw [hins] at hstep; cases hstep
  · intro db h id opcode args data wr rid h' hsend k hk
    unfold send_request at hsend
    cases hcore : send_request_core db h id opcode args data with
    | panic s => rw [hcore] at hsend; cases hsend
    | invalid h0 => rw [hcore] at hsend; cases hsend
    | ready h3 child is_destr =>
      rw [hcore] at hsend
      have hkeys := send_request_core_keys db h id opcode args data h3 child
        is_destr hcore k hk
      cases child with
      | none =>
        cases wr <;> cases is_destr <;>
          (injection hsend with h1 h2; subst h2;
           first
             | simpa using hkeys
             | simpa using isSome_mapFind_mapWith h3.map id.id k _ hkeys)
      | some c =>
        obtain ⟨cid, cser, cif⟩ := c
        cases wr <;> cases is_destr <;>
          (injection hsend with h1 h2; subst h2;
           first
             | simpa using hkeys
             | simpa using isSome_mapFind_mapWith h3.map id.id k _ hkeys)

/-- Witness for `c4_removal_requires_client_destroyed`: the delete-id event
on a concrete client-destroyed record removes it. -/
theorem c4_witness :
    ∃ h', handle_display_event testDb staleHandle
        ⟨1, 1, [Argument.uint 4278190080]⟩ = DisplayResult.ok h' ∧
      mapFind h'.map 4278190080 = none := by
  obtain ⟨h', heq, hrem, _, _⟩ :=
    c4_removal_requires_client_destroyed.1 testDb staleHandle 4278190080 stale
      rfl
  exact ⟨h', heq, hrem rfl⟩

end WlClient
